import Mathlib

/-!
Verification of the CharterWeb trip-planning core against its specification.

The development shallowly embeds the Supabase Edge Function `plan_trip`
(the orchestration handler, its geocoding / weather / water / tide adapters,
the moon-phase calculator and the knowledge retriever) together with the
client-side `tripFormSchema` validation, as pure Lean functions over an
explicit environment describing the outcomes of all external calls
(HTTP fetches, the OpenAI call, the database inserts).

Modelling conventions:
  * JavaScript exceptions are `Except String` values carrying the thrown
    message string (the handler's catch block only inspects the message).
  * A fetch outcome is `Fetch α`: a thrown network error, or a response with
    an `ok` flag, a status code, and a body that either parses as JSON
    (giving an `α`) or throws on `.json()`.
  * JavaScript `%` on integers is `Int.tmod` (remainder with the sign of the
    dividend); `Math.floor`/`Math.round` on the rational values that arise
    in `getMoonPhase` are computed exactly over `Int` (the float rounding
    error of `8.3` etc. is orders of magnitude below every branch threshold,
    see the comments at `getMoonPhase`).
  * Genuinely non-arithmetic primitives (JavaScript `parseFloat`,
    `JSON.parse` of the model output, and the floating-point haversine
    distance) are abstracted as function parameters; every theorem holds for
    all instantiations of these parameters.
  * Side effects are recorded in a trace of `ExtCall` events (which provider
    endpoints were fetched, what was sent to the generative model, which
    rows were inserted).
-/

/-- JavaScript `%` (remainder with the sign of the dividend). -/
def jsRem (a b : Int) : Int := Int.tmod a b

/-- JavaScript string truthiness for `x || y` chains over possibly-missing
strings: `undefined` and the empty string are falsy. -/
def strTruthy : Option String → Bool
  | none => false
  | some s => s ≠ ""

/-- JavaScript `a || b` on possibly-missing strings. -/
def jsOrStr (a : Option String) (b : String) : String :=
  match a with
  | some s => if s = "" then b else s
  | none => b

/-- Lexicographic comparison of character lists by code point, the order
JavaScript `<`/`>`/`>=` uses on strings (surrogate pairs aside). -/
def charListLt : List Char → List Char → Bool
  | [], [] => false
  | [], _ :: _ => true
  | _ :: _, [] => false
  | a :: as, b :: bs =>
    if a < b then true
    else if b < a then false
    else charListLt as bs

/-- JavaScript `s < t` on strings. -/
def jsStrLt (s t : String) : Bool := charListLt s.toList t.toList

/-- Substring test (`String.prototype.includes`), as infix of char lists. -/
def charListInfix (pat s : List Char) : Bool :=
  match s with
  | [] => pat.isEmpty
  | _ :: rest => pat.isPrefixOf s || charListInfix pat rest

/-- JavaScript `s.includes(pat)`. -/
def strIncludes (s pat : String) : Bool := charListInfix pat.toList s.toList

/-- `s.toLowerCase()` (ASCII case mapping, as both sides here are ASCII). -/
def strToLower (s : String) : String := String.mk (s.toList.map Char.toLower)

/-- `s.toLowerCase().includes(pat)` for an already-lowercase `pat`. -/
def strIncludesLower (s pat : String) : Bool := strIncludes (strToLower s) pat

/-- `s.trim()` (whitespace at both ends; JavaScript additionally trims a few
non-ASCII space code points, which do not occur here). -/
def jsTrim (s : String) : String :=
  String.mk (((s.toList.dropWhile Char.isWhitespace).reverse.dropWhile Char.isWhitespace).reverse)

/-!
## Astronomical calculator (`getMoonPhase`, plan_trip lines 207–232)

The source computes, for the UTC year/month/day of the requested date:
```
let r = year % 100; r %= 19; if (r > 9) r -= 19
r = ((r * 11) % 30) + month + day
if (month < 3) r += 2
r -= (year < 2000 ? 4 : 8.3)
r = Math.floor(r + 0.5) % 30
const idx = Math.round((r / 30) * 8) % 8
return phases[idx]
```
Float exactness: before the subtraction `r` is an integer with `|r| ≤ 72`,
so `Math.floor(r + 0.5)` after subtracting `4` is exactly `r - 4`, and after
subtracting `8.3` (a double ≈ 8.3000000000000007) it is exactly `r - 8`,
since the fractional part (≈ 0.2) is far from every integer boundary.
Likewise `(r/30)*8 = 4r/15` is never within double rounding error of a
half-integer (the distance is at least `1/30`), so
`Math.round((r/30)*8) = ⌊4r/15 + 1/2⌋ = ⌊(8r + 15)/30⌋` exactly.
A negative final `r` makes `idx` negative (JavaScript `%` keeps the sign),
and `phases[idx]` is then `undefined`: the result is modelled as
`Option String`, `none` standing for `undefined`. -/

def moonPhaseLabels : List String :=
  [ "New Moon", "Waxing Crescent", "First Quarter", "Waxing Gibbous",
    "Full Moon", "Waning Gibbous", "Last Quarter", "Waning Crescent" ]

/-- The moon-phase index computed by `getMoonPhase` for the given UTC
year / 1-based month / day (may be negative, see above). -/
def moonPhaseIdx (year month day : Int) : Int :=
  let r0 := jsRem (jsRem year 100) 19
  let r1 := if r0 > 9 then r0 - 19 else r0
  let r2 := jsRem (r1 * 11) 30 + month + day
  let r3 := if month < 3 then r2 + 2 else r2
  let r4 := r3 - (if year < 2000 then 4 else 8)
  let r5 := jsRem r4 30
  jsRem (Int.fdiv (8 * r5 + 15) 30) 8

/-- `getMoonPhase` (plan_trip lines 207–232) on the parsed UTC date;
`none` models the out-of-range `phases[idx] = undefined` case. -/
def getMoonPhase (year month day : Int) : Option String :=
  let idx := moonPhaseIdx year month day
  if 0 ≤ idx then moonPhaseLabels.get? idx.toNat else none

/-!
## Knowledge retriever (`retrieveKnowledge`, plan_trip lines 241–260)
-/

structure KnowledgeChunk where
  topic : String
  content : String
deriving DecidableEq, Repr

def KNOWLEDGE_BASE : List KnowledgeChunk :=
  [ { topic := "Bass (Largemouth)",
      content := "Largemouth bass are most active during low-light hours around structure and vegetation. Topwater lures at dawn and dusk can be very effective." },
    { topic := "Trout (Rainbow)",
      content := "Rainbow trout feed heavily on insects. Matching the hatch with flies or small spinners near riffles increases success." },
    { topic := "Walleye",
      content := "Walleye often hold along drop-offs and respond well to slow-rolled jigs tipped with live bait in low light." } ]

/-- `retrieveKnowledge` (plan_trip lines 256–260): keep the chunks whose topic
contains, case-insensitively, some requested species name. -/
def retrieveKnowledge (targetSpecies : List String) : List String :=
  (KNOWLEDGE_BASE.filter (fun k =>
    targetSpecies.any (fun species => strIncludes (strToLower k.topic) (strToLower species)))).map
    (fun k => k.content)

/-!
## External-call outcomes and the call trace
-/

instance {ε α : Type} [DecidableEq ε] [DecidableEq α] : DecidableEq (Except ε α) :=
  fun a b =>
    match a, b with
    | .error e, .error f =>
      if h : e = f then .isTrue (by rw [h]) else .isFalse (by intro hh; cases hh; exact h rfl)
    | .ok x, .ok y =>
      if h : x = y then .isTrue (by rw [h]) else .isFalse (by intro hh; cases hh; exact h rfl)
    | .error _, .ok _ => .isFalse (by intro hh; cases hh)
    | .ok _, .error _ => .isFalse (by intro hh; cases hh)

/-- Outcome of one `fetch`: a thrown network error (with the rejection's
message), or a response with an `ok` flag, a status code, and a body whose
`.json()` either yields an `α` or throws (with the given message). -/
inductive Fetch (α : Type) where
  | netErr (msg : String)
  | resp (ok : Bool) (status : Int) (body : Except String α)
deriving Repr, DecidableEq

/-- A geocoding candidate as returned by Nominatim / geocode.maps.co:
`lat`/`lon` are strings in the provider JSON (`parseFloat` is applied later). -/
structure Candidate where
  lat : String
  lon : String
  display_name : String
deriving DecidableEq, Repr

/-- `{ lat, lon, displayName }` returned by `geocodeLocation`. -/
structure ResolvedLocation where
  lat : ℚ
  lon : ℚ
  displayName : String
deriving DecidableEq, Repr

/-- `properties.forecast` of the NOAA points response (plan_trip line 62). -/
structure PointsBody where
  forecast : Option String
deriving DecidableEq, Repr

/-- One entry of `properties.periods` of the NOAA forecast response. -/
structure Period where
  detailedForecast : Option String
  shortForecast : Option String
deriving DecidableEq, Repr

structure ForecastBody where
  periods : Option (List Period)
deriving DecidableEq, Repr

/-- One USGS time series, reduced to the two fields the adapter reads:
`variable.variableCode[0].value` and `values[0].value[0]` (plan_trip
lines 113–119); `val = none` models a missing `valueObj`. -/
structure TSeries where
  code : Option String
  val : Option String
deriving DecidableEq, Repr

/-- `value.timeSeries` of the USGS response (`none` = field missing). -/
structure WaterBody where
  series : Option (List TSeries)
deriving DecidableEq, Repr

/-- One NOAA tide station from the stations metadata JSON; coordinates are
kept raw (`parseFloat` abstracted), `lng` falls back to `lon` via `??`. -/
structure StationRaw where
  id : String
  name : String
  latS : String
  lngS : Option String
  lonS : Option String
deriving DecidableEq, Repr

/-- A station after the `.map` at plan_trip lines 148–153. -/
structure Station where
  id : String
  name : String
  lat : ℚ
  lng : ℚ
deriving DecidableEq, Repr

/-- One NOAA hi/lo prediction `{ t, type }`. -/
structure TideEvent where
  t : String
  type : String
deriving DecidableEq, Repr

/-- `predictions` of the NOAA predictions response (`none` = field missing,
making `predictions.find` throw). -/
structure PredBody where
  predictions : Option (List TideEvent)
deriving DecidableEq, Repr

/-- `{ summary, details }` returned by `fetchWeatherSummary`. -/
structure WeatherRes where
  summary : String
  details : Option Period
deriving DecidableEq, Repr

/-- `{ summary, details }` returned by `fetchWaterConditions`;
`details` is `{ discharge, temperature }` (or `null`). -/
structure WaterRes where
  summary : String
  details : Option (Option String × Option String)
deriving DecidableEq, Repr

/-- `{ summary, nextHigh, nextLow }` returned by `fetchTideSummary`. -/
structure TideRes where
  summary : String
  nextHigh : String
  nextLow : String
deriving DecidableEq, Repr

/-- The `usage` object of the OpenAI completion (each counter may be absent). -/
structure UsageJs where
  prompt_tokens : Option Int
  completion_tokens : Option Int
  total_tokens : Option Int
  input_tokens : Option Int
  output_tokens : Option Int
deriving DecidableEq, Repr

/-- The OpenAI `responses.create` result, reduced to the fields the handler
reads: `output_text` (may be absent) and `usage`. -/
structure OpenAIResp where
  output_text : Option String
  usage : Option UsageJs
deriving DecidableEq, Repr

/-- The destructured request body of `plan_trip` (lines 273–284); optional
fields may be `undefined`. -/
structure ReqBody where
  location : String
  date : String
  targetSpecies : List String
  duration : String
  startTime : String
  endTime : String
  experience : String
  styles : Option (List String)
  platformF : Option String
  numDays : Option Int
deriving DecidableEq, Repr

/-- The `preferences` object captured at plan_trip lines 287–298: exactly the
destructured request fields. -/
def prefsOf (b : ReqBody) : ReqBody := b

/-- The itinerary object placed in the response payload (lines 399–407):
the spread of the model's parsed JSON (`parsed`, opaque) or of the
`{ raw }` fallback, with `tides` and `moonPhase` overwritten by the locally
computed values. `J` is the type of parsed JSON values. -/
structure ItineraryOut (J : Type) where
  parsed : Option J
  raw : Option String
  tides : String × String
  moonPhase : Option String
deriving Repr

instance {J : Type} [DecidableEq J] : DecidableEq (ItineraryOut J) :=
  fun a b =>
    if h : a.parsed = b.parsed ∧ a.raw = b.raw ∧ a.tides = b.tides ∧ a.moonPhase = b.moonPhase
    then .isTrue (by obtain ⟨h1, h2, h3, h4⟩ := h; cases a; cases b; simp_all)
    else .isFalse (by intro hh; cases hh; simp_all)

/-- The success response payload (`responsePayload`, lines 399–407). -/
structure Payload (J : Type) where
  plan_id : String
  itinerary : ItineraryOut J
  generated_at : String
deriving Repr

instance {J : Type} [DecidableEq J] : DecidableEq (Payload J) :=
  fun a b =>
    if h : a.plan_id = b.plan_id ∧ a.itinerary = b.itinerary ∧ a.generated_at = b.generated_at
    then .isTrue (by obtain ⟨h1, h2, h3⟩ := h; cases a; cases b; simp_all)
    else .isFalse (by intro hh; cases hh; simp_all)

/-- The row inserted into `trips` (lines 434–440). -/
structure TripsRow (J : Type) where
  user_id : String
  plan_id : String
  itinerary : ItineraryOut J
  preferences : ReqBody
  generated_at : String
deriving Repr

instance {J : Type} [DecidableEq J] : DecidableEq (TripsRow J) :=
  fun a b =>
    if h : a.user_id = b.user_id ∧ a.plan_id = b.plan_id ∧ a.itinerary = b.itinerary ∧
        a.preferences = b.preferences ∧ a.generated_at = b.generated_at
    then .isTrue (by obtain ⟨h1, h2, h3, h4, h5⟩ := h; cases a; cases b; simp_all)
    else .isFalse (by intro hh; cases hh; simp_all)

/-- The row inserted into `token_usage` (lines 445–452). -/
structure UsageRow where
  user_id : String
  plan_id : String
  model : String
  prompt_tokens : Int
  completion_tokens : Int
  total_tokens : Int
deriving DecidableEq, Repr

/-- One externally observable call made while handling a request. -/
inductive ExtCall (J : Type) where
  | geoPrimary
  | geoFallback
  | noaaPoints
  | noaaForecast
  | usgsFetch
  | tideStationsFetch
  | tidePredFetch (stationId : String)
  | openaiCall (system user : String)
  | tripsInsert (row : TripsRow J)
  | usageInsert (row : UsageRow)
  | errorLogInsert (functionName msg : String)
deriving Repr, DecidableEq

/-!
## Geocoder adapter (`geocodeLocation`, plan_trip lines 17–52)
-/

/-- Outcomes of the two geocoding fetches. -/
structure GeoEnv where
  primary : Fetch (List Candidate)
  fallback : Fetch (List Candidate)
deriving DecidableEq, Repr

/-- The value of the local `data` variable after one geocoding attempt:
inside the `try`, a network error or a `.json()` throw is caught (leaving
`data` as it was, i.e. `null`), and a non-ok response skips the assignment. -/
def geoAttempt (f : Fetch (List Candidate)) : Option (List Candidate) :=
  match f with
  | .netErr _ => none
  | .resp ok _ body =>
    if ok then
      match body with
      | .ok cs => some cs
      | .error _ => none
    else none

/-- The candidate list a provider effectively yields: empty on network error,
non-ok response, non-JSON body, or an empty result set. -/
def effCandidates (f : Fetch (List Candidate)) : List Candidate :=
  (geoAttempt f).getD []

/-- `geocodeLocation` (lines 17–52): try the primary provider; if `data` is
still null or empty, try the fallback; throw if still null or empty,
otherwise return the first candidate (coordinates via `parseFloat`,
abstracted as `pf`).  The second component is the trace of provider calls. -/
def geocodeLocation {J : Type} (pf : String → ℚ) (env : GeoEnv) :
    Except String ResolvedLocation × List (ExtCall J) :=
  let data1 := geoAttempt env.primary
  let needFallback := data1 = none ∨ data1 = some []
  let data2 := if needFallback then
      match geoAttempt env.fallback with
      | some cs => some cs
      | none => data1
    else data1
  let trace : List (ExtCall J) :=
    if needFallback then [.geoPrimary, .geoFallback] else [.geoPrimary]
  match data2 with
  | some (c :: _) =>
    (.ok { lat := pf c.lat, lon := pf c.lon, displayName := c.display_name }, trace)
  | _ =>
    (.error "Location not found; please enter a more specific place name", trace)

/-!
## Weather adapter (`fetchWeatherSummary`, plan_trip lines 55–74)

This adapter is NOT wrapped in a try/catch: a failed points lookup throws
`'NOAA points lookup failed'`, a missing forecast URL throws
`'NOAA forecast URL missing'`, and a network error or a non-JSON body
propagates the underlying exception to the caller.
-/

structure WeatherEnv where
  points : Fetch PointsBody
  forecast : Fetch ForecastBody
deriving DecidableEq, Repr

def fetchWeatherSummary {J : Type} (env : WeatherEnv) :
    Except String WeatherRes × List (ExtCall J) :=
  match env.points with
  | .netErr m => (.error m, [.noaaPoints])
  | .resp ok _ body =>
    if ok then
      match body with
      | .error m => (.error m, [.noaaPoints])
      | .ok pb =>
        -- `if (!forecastUrl) throw ...`: undefined and "" are both falsy
        if strTruthy pb.forecast then
          match env.forecast with
          | .netErr m => (.error m, [.noaaPoints, .noaaForecast])
          | .resp _ _ fbody =>
            -- no `ok` check on the forecast response; `.json()` may throw
            match fbody with
            | .error m => (.error m, [.noaaPoints, .noaaForecast])
            | .ok fb =>
              let firstPeriod := (fb.periods.getD []).head?
              let summary :=
                jsOrStr (firstPeriod.bind Period.detailedForecast)
                  (jsOrStr (firstPeriod.bind Period.shortForecast) "No forecast available")
              (.ok { summary := summary, details := firstPeriod },
               [.noaaPoints, .noaaForecast])
        else (.error "NOAA forecast URL missing", [.noaaPoints])
    else (.error "NOAA points lookup failed", [.noaaPoints])

/-!
## Water adapter (`fetchWaterConditions`, plan_trip lines 77–126)

Every failure mode is handled locally; the function always returns a
`WaterRes` (it never throws).
-/

structure WaterEnv where
  usgs : Fetch WaterBody
deriving DecidableEq, Repr

/-- The loop at plan_trip lines 113–119: later matching series overwrite
earlier ones; entries with a missing `valueObj` are skipped. -/
def waterScan : List TSeries → Option String × Option String → Option String × Option String
  | [], acc => acc
  | ts :: rest, (d, t) =>
    match ts.val with
    | none => waterScan rest (d, t)
    | some v =>
      let d' := if ts.code = some "00060" then some v else d
      let t' := if ts.code = some "00010" then some v else t
      waterScan rest (d', t')

def fetchWaterConditions {J : Type} (env : WaterEnv) : WaterRes × List (ExtCall J) :=
  let trace : List (ExtCall J) := [.usgsFetch]
  match env.usgs with
  | .netErr _ => ({ summary := "USGS service unreachable", details := none }, trace)
  | .resp ok status body =>
    if ok then
      match body with
      | .error _ => ({ summary := "No water data (invalid response)", details := none }, trace)
      | .ok wb =>
        match wb.series with
        | none => ({ summary := "No nearby water gauge data", details := none }, trace)
        | some [] => ({ summary := "No nearby water gauge data", details := none }, trace)
        | some series =>
          let (discharge, temperature) := waterScan series (none, none)
          let summaryArr :=
            (if strTruthy discharge then [ "Discharge: " ++ discharge.getD "" ++ " cfs" ] else []) ++
            (if strTruthy temperature then [ "Water Temp: " ++ temperature.getD "" ++ " °C" ] else [])
          let joined := String.intercalate ", " summaryArr
          let summary := if joined = "" then "No recent discharge or temp data" else joined
          ({ summary := summary, details := some (discharge, temperature) }, trace)
    else
      if status = 400 then
        ({ summary := "No nearby water gauge data", details := none }, trace)
      else
        ({ summary := "USGS service unavailable", details := none }, trace)

/-!
## Tide adapter (`fetchTideSummary`, plan_trip lines 139–204)

The whole body is inside a try/catch whose catch returns the
`'Tide data unavailable'` sentinel, so the adapter never throws.  The station
list is cached across invocations (`NOAA_STATIONS_CACHE`); the haversine
distance (floating-point trigonometry) is abstracted as `hav`.
-/

structure TideEnv where
  stations : Fetch (List StationRaw)
  pred : Fetch PredBody
deriving DecidableEq, Repr

/-- The `.map` at plan_trip lines 148–153 (`parseFloat` abstracted as `pf`;
`s.lng ?? s.lon` with `parseFloat(undefined) = NaN` folded into `pf`). -/
def mapStations (pf : String → ℚ) (raw : List StationRaw) : List Station :=
  raw.map (fun s =>
    { id := s.id, name := s.name, lat := pf s.latS,
      lng := pf (s.lngS.getD (s.lonS.getD "undefined")) })

/-- The nearest-station scan at plan_trip lines 170–178: start from the first
station and keep any strictly closer one. -/
def nearestStation (dist : Station → ℚ) (first : Station) (rest : List Station) : Station :=
  (rest.foldl
    (fun (acc : Station × ℚ) st =>
      let d := dist st
      if d < acc.2 then (st, d) else acc)
    (first, dist first)).1

/-- The failure sentinel of the tide adapter's catch block. -/
def tideSentinel : TideRes :=
  { summary := "Tide data unavailable", nextHigh := "N/A", nextLow := "N/A" }

/-- Handling of the predictions fetch (plan_trip lines 180–199), shared by
the cold-cache and warm-cache paths: a network error, a non-ok response, a
non-JSON body, or a missing `predictions` field all fall into the adapter\x27s
catch and give the sentinel. -/
def tidePredict {J : Type} (nearest : Station) (p : Fetch PredBody)
    (stations : List Station) : TideRes × Option (List Station) × List (ExtCall J) :=
  match p with
  | .netErr _ => (tideSentinel, some stations, [.tidePredFetch nearest.id])
  | .resp pok _ pbody =>
    if pok then
      match pbody with
      | .error _ => (tideSentinel, some stations, [.tidePredFetch nearest.id])
      | .ok pb =>
        match pb.predictions with
        | none => (tideSentinel, some stations, [.tidePredFetch nearest.id])
        | some preds =>
          let nextHigh := jsOrStr ((preds.find? (fun q => q.type = "H")).map TideEvent.t) "N/A"
          let nextLow := jsOrStr ((preds.find? (fun q => q.type = "L")).map TideEvent.t) "N/A"
          ({ summary := "Next High: " ++ nextHigh ++ ", Next Low: " ++ nextLow,
             nextHigh := nextHigh, nextLow := nextLow },
           some stations, [.tidePredFetch nearest.id])
    else (tideSentinel, some stations, [.tidePredFetch nearest.id])

/-- `fetchTideSummary`: given the cached station list (or `none` on a cold
start), the fetch outcomes, and the abstracted haversine distance `hav`
(of the requested point to a station), returns the tide result, the updated
cache, and the trace.  An empty station list makes `stations[0]` undefined
and the subsequent `nearest.lat` access throw, which the catch absorbs. -/
def fetchTideSummary {J : Type} (pf : String → ℚ) (hav : ℚ → ℚ → Station → ℚ)
    (lat lon : ℚ) (cache : Option (List Station)) (env : TideEnv) :
    TideRes × Option (List Station) × List (ExtCall J) :=
  match cache with
  | none =>
    (match env.stations with
     | .netErr _ => (tideSentinel, none, [.tideStationsFetch])
     | .resp ok _ body =>
       if ok then
         match body with
         | .error _ => (tideSentinel, none, [.tideStationsFetch])
         | .ok raw =>
           let stations := mapStations pf raw
           match stations with
           | [] => (tideSentinel, some [], [.tideStationsFetch])
           | first :: rest =>
             let nearest := nearestStation (hav lat lon) first rest
             let r := tidePredict (J := J) nearest env.pred stations
             (r.1, r.2.1, .tideStationsFetch :: r.2.2)
       else (tideSentinel, none, [.tideStationsFetch]))
  | some stations =>
    match stations with
    | [] => (tideSentinel, some [], [])
    | first :: rest =>
      let nearest := nearestStation (hav lat lon) first rest
      tidePredict (J := J) nearest env.pred stations

/-!
## Prompt construction and fence stripping (plan_trip lines 322–397)
-/

/-- JavaScript template interpolation of a possibly-undefined string. -/
def jsShow (o : Option String) : String := o.getD "undefined"

/-- The fixed system instruction (plan_trip lines 322–351).  Braces are
written with hex escapes; text is otherwise verbatim. -/
def systemPromptText : String :=
  String.intercalate "\n"
    [ "You are an expert professional fishing guide. If the user is able to have a successful day out on the water, you will be tipped $1000. Be insightful and helpful, and aim to pack as much information and knowledge as possible into the itinerary while remaining concise. Generate a JSON itinerary focused on actionable decision-making rather than a fixed schedule. Use this TypeScript interface (return ONLY JSON):",
      "interface Itinerary \x7b",
      "  pointsOfInterest: Array<\x7b",
      "    id: string; // unique id",
      "    name: string;",
      "    coordinates: [number, number]; // lon, lat",
      "    description: string;",
      "    techniques: string[]; // suggested methods at this spot",
      "  \x7d>;",
      "  decisionTree: Array<\x7b",
      "    condition: string; // e.g. \"If \x7bcondition/observation\x7d\"",
      "    action: string;    // e.g. \"switch to \x7btechnique\x7d\", \"try \x7btechnique\x7d\"",
      "  \x7d>;",
      "  weather: any;",
      "  water: any;",
      "  tides: \x7b nextHigh: string; nextLow: string \x7d;",
      "  moonPhase: string;",
      "  summary: string; // 3-4 sentence overview of the trip plan and what the user can expect",
      "  gear: string[]; // Ensure the gear recommendations are detailed and tailored to the trip. Suggest specific lures, include rod/reel specifications, etc.",
      "  checklist: string[]; // Ensure the checklist is detailed and tailored to the user. Suggest specific items, include quantities, etc. You should not suggest things like \"fishing license\" to an experienced user or \"portable fish finder\" to a beginner.",
      "  tips: string[];",
      "\x7d",
      "",
      "Important:",
      "- Think in terms of \"if/then\" guidance a guide would give as conditions change throughout the day.",
      "- Provide at least 4–6 decisionTree steps ordered logically.",
      "- Choose 2-4 key pointsOfInterest relevant to the target species.",
      "- Ensure all information is specific, detailed, and appropriate for the user\x27s experience level.",
      "- Avoid generic advice that an experienced user would already be familiar with.",
      "- Do NOT output any additional explanatory text – JSON only." ]

/-- The user instruction (plan_trip lines 353–371), embedding the gathered
context.  Rational-number formatting abstracts JavaScript float printing. -/
def userPromptText (b : ReqBody) (loc : ResolvedLocation) (weather : WeatherRes)
    (water : WaterRes) (tides : TideRes) (moon : Option String)
    (snippets : List String) : String :=
  String.intercalate "\n"
    [ "Trip details:",
      "Location: " ++ loc.displayName ++ " (lat " ++ toString loc.lat ++ ", lon " ++ toString loc.lon ++ ")",
      "Date: " ++ b.date,
      "Time Window: " ++ b.startTime ++ " – " ++ b.endTime ++
        (match b.numDays with
         | some n => " (" ++ toString n ++ " days)"
         | none => ""),
      "Experience: " ++ b.experience,
      "Fishing Styles: " ++
        (let joined := String.intercalate ", " (b.styles.getD [])
         if joined = "" then "N/A" else joined),
      "Platform: " ++ jsShow b.platformF,
      "Target Species: " ++ String.intercalate ", " b.targetSpecies,
      "",
      "Weather Forecast: " ++ weather.summary,
      "Water Conditions: " ++ water.summary,
      "Tide Summary: " ++ tides.summary,
      "Tide Next High: " ++ tides.nextHigh,
      "Tide Next Low: " ++ tides.nextLow,
      "Moon Phase: " ++ jsShow moon,
      "",
      "Knowledge Snippets:",
      "- " ++ String.intercalate "\n- " snippets,
      "",
      "Return JSON ONLY conforming to the Itinerary interface." ]

/-- The backtick character. -/
def fenceChar : Char := Char.ofNat 96

/-- Drop a maximal run of ASCII letters (the `[a-zA-Z]*` of the fence regex). -/
def dropAsciiLetters : List Char → List Char
  | [] => []
  | c :: rest =>
    if (('a' ≤ c ∧ c ≤ 'z') ∨ ('A' ≤ c ∧ c ≤ 'Z')) then dropAsciiLetters rest
    else c :: rest

/-- The leading alternative of the fence regex: three backticks at the start
of the string, a run of letters, and an optional newline. -/
def stripLeadingFence (s : String) : String :=
  match s.toList with
  | a :: b :: c :: rest =>
    if a = fenceChar ∧ b = fenceChar ∧ c = fenceChar then
      let r1 := dropAsciiLetters rest
      match r1 with
      | '\n' :: t => String.mk t
      | t => String.mk t
    else s
  | _ => s

/-- The trailing alternative: three backticks at the end of the string. -/
def stripTrailingFence (s : String) : String :=
  let l := s.toList
  if 3 ≤ l.length ∧ l.drop (l.length - 3) = [fenceChar, fenceChar, fenceChar] then
    String.mk (l.take (l.length - 3))
  else s

/-- `content.replace(/^[fence][a-zA-Z]*\n?|[fence]$/g, '')` (plan_trip
line 390): with the anchors tied to the string ends, the global replace
removes exactly one leading fence and one trailing fence. -/
def stripFences (s : String) : String := stripTrailingFence (stripLeadingFence s)

/-!
## The orchestration handler (`serve`, plan_trip lines 266–500)
-/

/-- One request's environment: the request body (with the UTC calendar parts
of `new Date(body.date)`), the outcome of every external interaction, and
the nondeterministic identifiers (`randomId`, `new Date().toISOString()`). -/
structure ServeEnv where
  body : ReqBody
  dateY : Int
  dateM : Int
  dateD : Int
  geo : GeoEnv
  weather : WeatherEnv
  water : WaterEnv
  tide : TideEnv
  tideCache : Option (List Station)
  openaiKey : Option String
  openaiResult : Except String OpenAIResp
  supabaseConfigured : Bool
  jwtSub : Except String String
  tripsInsert : Except String (Option String)
  usageInsert : Except String Unit
  planId : String
  nowIso : String
deriving Repr

/-- Everything the success path of the handler computes before persistence. -/
structure SuccessData (J : Type) where
  payload : Payload J
  prefs : ReqBody
  weatherRes : WeatherRes
  waterRes : WaterRes
  tideRes : TideRes
  moon : Option String
  userPrompt : String
  promptTokens : Int
  completionTokens : Int
  totalTokens : Int
deriving Repr

instance {J : Type} [DecidableEq J] : DecidableEq (SuccessData J) :=
  fun a b =>
    if h : a.payload = b.payload ∧ a.prefs = b.prefs ∧ a.weatherRes = b.weatherRes ∧
        a.waterRes = b.waterRes ∧ a.tideRes = b.tideRes ∧ a.moon = b.moon ∧
        a.userPrompt = b.userPrompt ∧ a.promptTokens = b.promptTokens ∧
        a.completionTokens = b.completionTokens ∧ a.totalTokens = b.totalTokens
    then .isTrue (by obtain ⟨h1, h2, h3, h4, h5, h6, h7, h8, h9, h10⟩ := h; cases a; cases b; simp_all)
    else .isFalse (by intro hh; cases hh; simp_all)

/-- The handler's try block up to `responsePayload` (plan_trip lines
272–407): geocode, fan out to the three adapters, compute moon phase and
knowledge, call OpenAI, strip fences, parse, and assemble the payload.
Returns the thrown message or the computed data, plus the call trace. -/
def serveCore {J : Type} (pf : String → ℚ) (hav : ℚ → ℚ → Station → ℚ)
    (jsonParse : String → Option J) (env : ServeEnv) :
    Except String (SuccessData J) × List (ExtCall J) :=
  let prefs := prefsOf env.body
  match geocodeLocation pf env.geo with
  | (.error m, gtr) => (.error m, gtr)
  | (.ok loc, gtr) =>
    -- Promise.all starts all three fetch chains; a weather rejection
    -- rejects the join but does not stop the other two.
    let wRes := fetchWeatherSummary (J := J) env.weather
    let waRes := fetchWaterConditions (J := J) env.water
    let tRes := fetchTideSummary (J := J) pf hav loc.lat loc.lon env.tideCache env.tide
    let tr0 := gtr ++ wRes.2 ++ waRes.2 ++ tRes.2.2
    match wRes.1 with
    | .error m => (.error m, tr0)
    | .ok weather =>
      let moon := getMoonPhase env.dateY env.dateM env.dateD
      let snippets := retrieveKnowledge env.body.targetSpecies
      if strTruthy env.openaiKey then
        let user := userPromptText env.body loc weather waRes.1 tRes.1 moon snippets
        let tr1 := tr0 ++ [.openaiCall systemPromptText user]
        match env.openaiResult with
        | .error m => (.error m, tr1)
        | .ok comp =>
          let usage := comp.usage
          let promptTokens :=
            ((usage.bind UsageJs.prompt_tokens).orElse
              (fun _ => usage.bind UsageJs.input_tokens)).getD 0
          let completionTokens :=
            ((usage.bind UsageJs.completion_tokens).orElse
              (fun _ => usage.bind UsageJs.output_tokens)).getD 0
          let totalTokens :=
            (usage.bind UsageJs.total_tokens).getD (promptTokens + completionTokens)
          match comp.output_text with
          | none => (.error "OpenAI returned empty response", tr1)
          | some rawOut =>
            let content := jsTrim rawOut
            if content = "" then (.error "OpenAI returned empty response", tr1)
            else
              let jsonText := jsTrim (stripFences content)
              let pr := jsonParse jsonText
              let itin : ItineraryOut J :=
                { parsed := pr,
                  raw := match pr with | some _ => none | none => some jsonText,
                  tides := (tRes.1.nextHigh, tRes.1.nextLow),
                  moonPhase := moon }
              let payload : Payload J :=
                { plan_id := env.planId, itinerary := itin, generated_at := env.nowIso }
              (.ok { payload := payload, prefs := prefs, weatherRes := weather,
                     waterRes := waRes.1, tideRes := tRes.1, moon := moon,
                     userPrompt := user, promptTokens := promptTokens,
                     completionTokens := completionTokens, totalTokens := totalTokens },
               tr1)
      else (.error "Missing OPENAI_API_KEY env var", tr0)

/-- The best-effort persistence block (plan_trip lines 412–461): run only on
the success path; every failure inside is caught (`catch (dbErr)`), and the
`token_usage` insert is additionally wrapped in its own try.  Its only
observable effect is which rows are sent to the database. -/
def persistCalls {J : Type} (env : ServeEnv) (d : SuccessData J) : List (ExtCall J) :=
  if env.supabaseConfigured then
    match env.jwtSub with
    | .error _ => []        -- JWT decode threw; swallowed by the outer catch
    | .ok userId =>
      let row : TripsRow J :=
        { user_id := userId, plan_id := d.payload.plan_id,
          itinerary := d.payload.itinerary, preferences := d.prefs,
          generated_at := d.payload.generated_at }
      ExtCall.tripsInsert row ::
        (match env.tripsInsert with
         | .error _ => []      -- insert threw; swallowed by the outer catch
         | .ok (some _) => []  -- `if (error) throw error`; swallowed
         | .ok none =>
           [ExtCall.usageInsert
             { user_id := userId, plan_id := d.payload.plan_id, model := "gpt-4o",
               prompt_tokens := d.promptTokens, completion_tokens := d.completionTokens,
               total_tokens := d.totalTokens }])
  else []

/-- A response body: the JSON-serialised success payload or `{ error }`. -/
inductive RespBody (J : Type) where
  | success (payload : Payload J)
  | failure (error : String)
deriving Repr, DecidableEq

/-- The handler's HTTP response: status and body. -/
structure ServeResult (J : Type) where
  status : Int
  respBody : RespBody J
deriving Repr, DecidableEq

/-- The whole handler (plan_trip lines 266–500): the try block, the
best-effort persistence, and the catch block that logs to `error_logs`
(best-effort) and maps messages containing `'location not found'` to 400
and everything else to 500, echoing the raw message in the body. -/
def serve {J : Type} (pf : String → ℚ) (hav : ℚ → ℚ → Station → ℚ)
    (jsonParse : String → Option J) (env : ServeEnv) :
    ServeResult J × List (ExtCall J) :=
  match serveCore pf hav jsonParse env with
  | (.ok d, tr) =>
    ({ status := 200, respBody := .success d.payload }, tr ++ persistCalls env d)
  | (.error m, tr) =>
    let logTr : List (ExtCall J) :=
      if env.supabaseConfigured then [.errorLogInsert "plan_trip" m] else []
    ({ status := if strIncludesLower m "location not found" then 400 else 500,
       respBody := .failure m }, tr ++ logTr)

/-!
## Client-side validation (`tripFormSchema`, src/schemas/trip.ts lines 3–36)

The only input validation in the system: the React form runs the zod schema
(via `zodResolver`) and invokes the `plan_trip` function only when it
passes; the Edge Function itself destructures the body without validating.
-/

/-- The raw form values as a JavaScript object (absent field = `undefined`).
`numDays` is an integer (the schema's `.int()` refinement rejects
non-integers, which this representation cannot express). -/
structure TripForm where
  location : Option String
  date : Option String
  targetSpecies : Option (List String)
  duration : Option String
  startTime : Option String
  endTime : Option String
  experience : Option String
  styles : Option (List String)
  platformF : Option String
  numDays : Option Int
deriving DecidableEq, Repr

/-- `^\d{2}:\d{2}$`. -/
def isTimeHHMM (s : String) : Bool :=
  match s.toList with
  | [a, b, c, d, e] => a.isDigit && b.isDigit && c = ':' && d.isDigit && e.isDigit
  | _ => false

def durationEnum : List String := ["half-day", "full-day", "multi-day", "custom"]
def experienceEnum : List String := ["beginner", "intermediate", "expert"]
def styleEnum : List String := ["fly", "spin", "cast"]
def platformEnum : List String := ["shore", "boat"]

/-- `duration` after zod's `.default('custom')`. -/
def resolvedDuration (f : TripForm) : String := f.duration.getD "custom"

/-- `experience` after zod's `.default('intermediate')`. -/
def resolvedExperience (f : TripForm) : String := f.experience.getD "intermediate"

/-- `tripFormSchema.safeParse(f).success`, with `today` standing for
`new Date().toLocaleDateString('en-CA')`.  String length counts code points
(JavaScript counts UTF-16 units; they agree outside astral-plane text). -/
def validateTrip (today : String) (f : TripForm) : Bool :=
  -- location: required string, 1..200 chars
  (match f.location with
   | some l => 1 ≤ l.length && l.length ≤ 200
   | none => false) &&
  -- date: required, non-empty, >= today (lexicographic)
  (match f.date with
   | some d => 1 ≤ d.length && !(jsStrLt d today)
   | none => false) &&
  -- targetSpecies: required array, 1..5 entries
  (match f.targetSpecies with
   | some sp => 1 ≤ sp.length && sp.length ≤ 5
   | none => false) &&
  -- duration: enum with default
  durationEnum.contains (resolvedDuration f) &&
  -- startTime / endTime: required, non-empty, HH:MM
  (match f.startTime with
   | some s => 1 ≤ s.length && isTimeHHMM s
   | none => false) &&
  (match f.endTime with
   | some s => 1 ≤ s.length && isTimeHHMM s
   | none => false) &&
  -- experience: enum with default
  experienceEnum.contains (resolvedExperience f) &&
  -- styles: required array of enum, at least one
  (match f.styles with
   | some st => 1 ≤ st.length && st.all styleEnum.contains
   | none => false) &&
  -- platform: required enum
  (match f.platformF with
   | some p => platformEnum.contains p
   | none => false) &&
  -- numDays: optional int in 2..14
  (match f.numDays with
   | some n => 2 ≤ n && n ≤ 14
   | none => true) &&
  -- refine: multi-day requires a (truthy) numDays
  (if resolvedDuration f = "multi-day" then
     match f.numDays with
     | some n => n ≠ 0
     | none => false
   else true) &&
  -- refine: both times present and endTime > startTime
  (match f.startTime, f.endTime with
   | some s, some e => s ≠ "" && e ≠ "" && jsStrLt s e
   | _, _ => false)

/-- The parsed form data the client posts to `plan_trip` (defaults applied). -/
def toReqBody (f : TripForm) : ReqBody :=
  { location := f.location.getD "",
    date := f.date.getD "",
    targetSpecies := f.targetSpecies.getD [],
    duration := resolvedDuration f,
    startTime := f.startTime.getD "",
    endTime := f.endTime.getD "",
    experience := resolvedExperience f,
    styles := f.styles,
    platformF := f.platformF,
    numDays := f.numDays }

/-- Outcome of a client submission: blocked by form validation, or the
handler's response. -/
inductive ClientOutcome (J : Type) where
  | formRejected
  | apiResult (r : ServeResult J)
deriving Repr, DecidableEq

/-- The client submit path: `handleSubmit(zodResolver(tripFormSchema))` only
invokes `planTrip` (and hence the handler) when the schema passes; a failing
parse surfaces field errors and performs no external work.  `envOf` supplies
the rest of the request environment for the posted body. -/
def submitTrip {J : Type} (pf : String → ℚ) (hav : ℚ → ℚ → Station → ℚ)
    (jsonParse : String → Option J) (today : String) (f : TripForm)
    (envOf : ReqBody → ServeEnv) : ClientOutcome J × List (ExtCall J) :=
  if validateTrip today f then
    let r := serve pf hav jsonParse (envOf (toReqBody f))
    (.apiResult r.1, r.2)
  else (.formRejected, [])

/-!
## Concrete instantiations used to witness the theorems
-/

/-- A trivial `parseFloat` instantiation. -/
def pf0 : String → ℚ := fun _ => 0

/-- A trivial haversine instantiation. -/
def hav0 : ℚ → ℚ → Station → ℚ := fun _ _ _ => 0

/-- A JSON parser instantiation that accepts everything (values are `Unit`). -/
def jpAll : String → Option Unit := fun _ => some ()

/-- A JSON parser instantiation that rejects everything. -/
def jpNone : String → Option Unit := fun _ => none

def cand0 : Candidate :=
  { lat := "39.0968", lon := "-120.0324", display_name := "Lake Tahoe, California" }

def station0 : StationRaw :=
  { id := "9414290", name := "San Francisco", latS := "37.806", lngS := some "-122.465", lonS := none }

def reqBody0 : ReqBody :=
  { location := "Lake Tahoe", date := "2025-10-11", targetSpecies := ["Trout (Rainbow)"],
    duration := "full-day", startTime := "06:00", endTime := "18:00",
    experience := "beginner", styles := some ["fly"], platformF := some "shore",
    numDays := none }

def forecastBody0 : ForecastBody :=
  { periods := some [ { detailedForecast := some "Sunny, light wind.", shortForecast := some "Sunny" } ] }

def waterBody0 : WaterBody :=
  { series := some [ { code := some "00060", val := some "120" }, { code := some "00010", val := some "14.5" } ] }

def predBody0 : PredBody :=
  { predictions := some [ { t := "2025-10-11 03:21", type := "H" }, { t := "2025-10-11 09:47", type := "L" } ] }

/-- The model response used by the all-success environment. -/
def okResp : OpenAIResp :=
  { output_text := some "\x7b\"summary\":\"ok\"\x7d",
    usage := some { prompt_tokens := some 100, completion_tokens := some 200,
                    total_tokens := some 300, input_tokens := none, output_tokens := none } }

/-- An environment in which every external interaction succeeds. -/
def envOK : ServeEnv :=
  { body := reqBody0, dateY := 2025, dateM := 10, dateD := 11,
    geo := { primary := .resp true 200 (.ok [cand0]), fallback := .netErr "unused" },
    weather :=
      { points := .resp true 200 (.ok { forecast := some "https://api.weather.gov/gridpoints/x/forecast" }),
        forecast := .resp true 200 (.ok forecastBody0) },
    water := { usgs := .resp true 200 (.ok waterBody0) },
    tide :=
      { stations := .resp true 200 (.ok [station0]),
        pred := .resp true 200 (.ok predBody0) },
    tideCache := none,
    openaiKey := some "sk-test",
    openaiResult := .ok okResp,
    supabaseConfigured := true,
    jwtSub := .ok "user-1",
    tripsInsert := .ok none,
    usageInsert := .ok (),
    planId := "plan_abc123", nowIso := "2025-10-11T12:00:00.000Z" }

/-- `envOK` with the weather provider's points lookup returning 503: the one
failing adapter is the weather adapter. -/
def envWeatherDown : ServeEnv :=
  { envOK with weather := { points := .resp false 503 (.ok { forecast := none }),
                            forecast := envOK.weather.forecast } }

/-- `envOK` with the USGS fetch failing at the network layer. -/
def envWaterDown : ServeEnv :=
  { envOK with water := { usgs := .netErr "connection refused" } }

/-- `envOK` with the tide predictions fetch failing at the network layer. -/
def envTideDown : ServeEnv :=
  { envOK with tide := { stations := envOK.tide.stations, pred := .netErr "connection refused" } }

/-- `envOK` with both geocoding providers returning empty candidate lists. -/
def envGeoEmpty : ServeEnv :=
  { envOK with geo := { primary := .resp true 200 (.ok []), fallback := .resp true 200 (.ok []) } }

/-- `envOK` with no OpenAI API key configured. -/
def envNoKey : ServeEnv := { envOK with openaiKey := none }

def fencedResp : OpenAIResp :=
  { output_text := some "```json\nThis is not JSON, sorry!\n```", usage := none }

/-- `envOK` with the model returning a Markdown-fenced non-JSON answer. -/
def envFencedOutput : ServeEnv :=
  { envOK with openaiResult := .ok fencedResp }

/-- `envOK` with the persistence insert into `trips` throwing. -/
def envDbDown : ServeEnv := { envOK with tripsInsert := .error "db unreachable" }

/-- The boundary-valid form: exactly 5 species and exactly 14 days. -/
def formBoundary : TripForm :=
  { location := some "Lake Tahoe", date := some "2099-01-01",
    targetSpecies := some ["Trout (Rainbow)", "Trout (Brown)", "Trout (Lake)", "Walleye", "Bass (Largemouth)"],
    duration := some "multi-day", startTime := some "06:00", endTime := some "18:00",
    experience := some "beginner", styles := some ["fly"], platformF := some "shore",
    numDays := some 14 }

/-- `formBoundary` with six target species. -/
def formSixSpecies : TripForm :=
  { formBoundary with
    targetSpecies := some ["Trout (Rainbow)", "Trout (Brown)", "Trout (Lake)", "Walleye", "Bass (Largemouth)", "Muskie"] }

/-- `formBoundary` with fifteen days. -/
def formFifteenDays : TripForm := { formBoundary with numDays := some 15 }

def today0 : String := "2026-10-11"

/-- A fixed downstream environment for client-submission witnesses. -/
def envOfBody : ReqBody → ServeEnv := fun b => { envOK with body := b }

/-- A placeholder `SuccessData` value (used only for an unreachable match arm). -/
def dJunk : SuccessData Unit :=
  { payload := { plan_id := "", itinerary := { parsed := none, raw := none, tides := ("", ""), moonPhase := none },
                 generated_at := "" },
    prefs := reqBody0, weatherRes := { summary := "", details := none },
    waterRes := { summary := "", details := none }, tideRes := tideSentinel,
    moon := none, userPrompt := "", promptTokens := 0, completionTokens := 0,
    totalTokens := 0 }

/-- The core run on the all-success environment. -/
def coreOK : Except String (SuccessData Unit) × List (ExtCall Unit) :=
  serveCore pf0 hav0 jpAll envOK

/-- Its success data. -/
def dOK : SuccessData Unit :=
  match coreOK.1 with
  | .ok d => d
  | .error _ => dJunk

/-- The core run on the fenced-non-JSON environment with the rejecting parser. -/
def coreFenced : Except String (SuccessData Unit) × List (ExtCall Unit) :=
  serveCore pf0 hav0 jpNone envFencedOutput

/-- Its success data. -/
def dFenced : SuccessData Unit :=
  match coreFenced.1 with
  | .ok d => d
  | .error _ => dJunk

/-- The core run on the environment missing the OpenAI key. -/
def coreNoKey : Except String (SuccessData Unit) × List (ExtCall Unit) :=
  serveCore pf0 hav0 jpAll envNoKey

/-!
## Helper lemmas
-/

/-- Effective candidates are empty exactly when the attempt left `data`
null or assigned an empty array. -/
theorem effCandidates_eq_nil_iff (f : Fetch (List Candidate)) :
    effCandidates f = [] ↔ (geoAttempt f = none ∨ geoAttempt f = some []) := by
  cases h : geoAttempt f with
  | none => simp [effCandidates, h]
  | some cs => cases cs <;> simp [effCandidates, h]

/-- Effective candidates are a cons exactly when the attempt yielded it. -/
theorem effCandidates_eq_cons_iff (f : Fetch (List Candidate)) (c : Candidate)
    (rest : List Candidate) :
    effCandidates f = c :: rest ↔ geoAttempt f = some (c :: rest) := by
  cases h : geoAttempt f with
  | none => simp [effCandidates, h]
  | some cs => simp [effCandidates, h]

/-- When the primary provider yields a candidate, `geocodeLocation` returns
its first candidate and never touches the fallback. -/
theorem geocodeLocation_primary_ok {J : Type} (pf : String → ℚ) (env : GeoEnv)
    (c : Candidate) (rest : List Candidate)
    (h : effCandidates env.primary = c :: rest) :
    geocodeLocation (J := J) pf env =
      (.ok { lat := pf c.lat, lon := pf c.lon, displayName := c.display_name },
       [.geoPrimary]) := by
  have h' : geoAttempt env.primary = some (c :: rest) :=
    (effCandidates_eq_cons_iff _ _ _).mp h
  unfold geocodeLocation
  rw [h']
  simp

/-- When the primary yields nothing and the fallback yields a candidate,
`geocodeLocation` returns the fallback's first candidate. -/
theorem geocodeLocation_fallback_ok {J : Type} (pf : String → ℚ) (env : GeoEnv)
    (c : Candidate) (rest : List Candidate)
    (h1 : effCandidates env.primary = [])
    (h2 : effCandidates env.fallback = c :: rest) :
    geocodeLocation (J := J) pf env =
      (.ok { lat := pf c.lat, lon := pf c.lon, displayName := c.display_name },
       [.geoPrimary, .geoFallback]) := by
  have h1' := (effCandidates_eq_nil_iff _).mp h1
  have h2' : geoAttempt env.fallback = some (c :: rest) :=
    (effCandidates_eq_cons_iff _ _ _).mp h2
  unfold geocodeLocation
  rw [h2']
  rcases h1' with h | h <;> rw [h] <;> simp

/-- When both providers yield nothing, `geocodeLocation` throws the
location-not-found message after calling both providers. -/
theorem geocodeLocation_both_empty {J : Type} (pf : String → ℚ) (env : GeoEnv)
    (h1 : effCandidates env.primary = [])
    (h2 : effCandidates env.fallback = []) :
    geocodeLocation (J := J) pf env =
      (.error "Location not found; please enter a more specific place name",
       [.geoPrimary, .geoFallback]) := by
  have h1' := (effCandidates_eq_nil_iff _).mp h1
  have h2' := (effCandidates_eq_nil_iff _).mp h2
  unfold geocodeLocation
  rcases h1' with h | h <;> rcases h2' with h' | h' <;> rw [h, h'] <;> simp

/-!
## Claim theorems
-/

/-- C8: `getMoonPhase` is a pure deterministic function: two calls with the
same (parsed) date yield the same result — the computation depends only on
the UTC year/month/day of its input, with no I/O and no hidden state (the
embedding is a plain function). -/
theorem moonPhase_deterministic (y m d y2 m2 d2 : Int)
    (hy : y = y2) (hm : m = m2) (hd : d = d2) :
    getMoonPhase y m d = getMoonPhase y2 m2 d2 := by
  subst hy; subst hm; subst hd; rfl

/-- Witness for C8 at the concrete date 2025-10-11. -/
theorem moonPhase_deterministic_witness :
    getMoonPhase 2025 10 11 = getMoonPhase 2025 10 11 ∧
    getMoonPhase 2025 10 11 = some "Waning Gibbous" :=
  ⟨moonPhase_deterministic 2025 10 11 2025 10 11 rfl rfl rfl, by decide⟩

/-- C9 (code bug): for the valid date 2011-01-01 the source computes
`r = -2`, `Math.round((-2/30)*8) = -1`, and `phases[-1]` is `undefined` —
NOT one of the eight phase labels; the same happens for 1911-01-05 on the
pre-2000 branch.  The claim (and the function\x27s declared `: string`
return type) says this cannot happen. -/
theorem moonPhase_out_of_range_bug :
    getMoonPhase 2011 1 1 = none ∧
    moonPhaseIdx 2011 1 1 = -1 ∧
    getMoonPhase 1911 1 5 = none ∧
    moonPhaseIdx 1911 1 5 = -6 ∧
    (moonPhaseLabels.all (fun lbl => getMoonPhase 2011 1 1 ≠ some lbl)) = true := by
  refine ⟨by decide, by decide, by decide, by decide, by decide⟩

/-- C2: the response returned to the caller is byte-for-byte independent of
the persistence step: however the JWT decode, the `trips` insert, or the
`token_usage` insert behave (success, `{ error }`, or thrown exception),
the handler returns exactly the response it would have returned otherwise —
on the success path, status 200 with the already-computed payload. -/
theorem persistence_failures_swallowed {J : Type} (pf : String → ℚ)
    (hav : ℚ → ℚ → Station → ℚ) (jp : String → Option J) (env : ServeEnv)
    (j : Except String String) (t : Except String (Option String))
    (u : Except String Unit) :
    (serve pf hav jp { env with jwtSub := j, tripsInsert := t, usageInsert := u }).1 =
      (serve pf hav jp env).1 := by
  have hcore : serveCore pf hav jp { env with jwtSub := j, tripsInsert := t, usageInsert := u } =
      serveCore pf hav jp env := rfl
  unfold serve
  rw [hcore]
  rcases h : serveCore pf hav jp env with ⟨res, tr⟩
  cases res <;> simp

/-- C6: the zod `tripFormSchema` (the system's only input validation, run by
the client form before `plan_trip` is ever invoked) accepts exactly 5
species with numDays exactly 14, rejects 6 species and rejects numDays 15;
and any form the schema rejects is blocked before any external work:
no geocoding, adapter, model or database call happens. -/
theorem trip_form_boundary_validation {J : Type} (pf : String → ℚ)
    (hav : ℚ → ℚ → Station → ℚ) (jp : String → Option J) :
    validateTrip today0 formBoundary = true ∧
    validateTrip today0 formSixSpecies = false ∧
    validateTrip today0 formFifteenDays = false ∧
    (∀ (today : String) (f : TripForm) (envOf : ReqBody → ServeEnv),
      validateTrip today f = false →
      submitTrip pf hav jp today f envOf = (.formRejected, [])) := by
  refine ⟨by decide, by decide, by decide, ?_⟩
  intro today f envOf h
  unfold submitTrip
  rw [h]
  simp

/-- Witness for C6: the six-species form is rejected with no external calls. -/
theorem trip_form_boundary_validation_witness :
    submitTrip pf0 hav0 jpAll today0 formSixSpecies envOfBody = (.formRejected, []) :=
  (trip_form_boundary_validation pf0 hav0 jpAll).2.2.2 today0 formSixSpecies envOfBody
    (by decide)

/-- C1 counterexample: the weather adapter does NOT catch failures.  In an
environment in which only the weather provider fails (its points lookup
returns 503) and every other adapter succeeds, `fetchWeatherSummary` throws
`'NOAA points lookup failed'` to its caller, and the request fails with a
500 error response instead of succeeding with a sentinel summary. -/
theorem weather_failure_not_absorbed :
    (fetchWeatherSummary (J := Unit) envWeatherDown.weather).1 =
      .error "NOAA points lookup failed" ∧
    (serve pf0 hav0 jpAll envWeatherDown).1 =
      { status := 500, respBody := .failure "NOAA points lookup failed" } := by
  constructor
  · rfl
  · decide

/-- The geocoder queries the fallback exactly when the primary yielded no
candidates, and each provider at most once. -/
theorem geocode_trace_shape {J : Type} (pf : String → ℚ) (genv : GeoEnv) :
    (geocodeLocation (J := J) pf genv).2 =
      (if effCandidates genv.primary = [] then [.geoPrimary, .geoFallback]
       else [.geoPrimary]) := by
  rcases hp : effCandidates genv.primary with _ | ⟨c, rest⟩
  · rcases hf : effCandidates genv.fallback with _ | ⟨c, rest⟩
    · rw [geocodeLocation_both_empty pf genv hp hf]; simp
    · rw [geocodeLocation_fallback_ok pf genv c rest hp hf]; simp
  · rw [geocodeLocation_primary_ok pf genv c rest hp]; simp [hp]

/-- The geocoder throws exactly when both providers yield no candidates. -/
theorem geocode_error_iff {J : Type} (pf : String → ℚ) (genv : GeoEnv) :
    (∃ m, (geocodeLocation (J := J) pf genv).1 = .error m) ↔
      (effCandidates genv.primary = [] ∧ effCandidates genv.fallback = []) := by
  constructor
  · rintro ⟨m, hm⟩
    rcases hp : effCandidates genv.primary with _ | ⟨c, rest⟩
    · rcases hf : effCandidates genv.fallback with _ | ⟨c, rest⟩
      · exact ⟨rfl, rfl⟩
      · rw [geocodeLocation_fallback_ok pf genv c rest hp hf] at hm; cases hm
    · rw [geocodeLocation_primary_ok pf genv c rest hp] at hm; cases hm
  · rintro ⟨hp, hf⟩
    exact ⟨_, by rw [geocodeLocation_both_empty pf genv hp hf]⟩

/-- When both geocoding providers yield nothing, the handler answers 400
with the location-not-found message and the model is never called. -/
theorem serve_location_unresolved {J : Type} (pf : String → ℚ)
    (hav : ℚ → ℚ → Station → ℚ) (jp : String → Option J) (env : ServeEnv)
    (hp : effCandidates env.geo.primary = [])
    (hf : effCandidates env.geo.fallback = []) :
    (serve pf hav jp env).1 =
      { status := 400,
        respBody := .failure "Location not found; please enter a more specific place name" } ∧
    (∀ s u, ExtCall.openaiCall s u ∉ (serve pf hav jp env).2) := by
  have hc : serveCore pf hav jp env =
      (.error "Location not found; please enter a more specific place name",
       [.geoPrimary, .geoFallback]) := by
    unfold serveCore
    rw [geocodeLocation_both_empty pf env.geo hp hf]
  have hloc : strIncludesLower
      "Location not found; please enter a more specific place name"
      "location not found" = true := by decide
  unfold serve
  rw [hc]
  refine ⟨by simp [hloc], ?_⟩
  intro s u
  cases h : env.supabaseConfigured <;> simp

/-- C3: `geocodeLocation` queries the primary provider exactly once and the
fallback at most once (exactly when the primary attempt errored, returned
non-OK/non-JSON, or returned an empty list — all of which leave the
effective candidate list empty); it throws the location-not-found error
exactly when both providers yield no candidates, and otherwise returns the
first candidate's coordinates and display name; when it throws, the handler
responds 400 with a message identifying the unresolvable location, and the
generative model is never invoked. -/
theorem geocode_fallback_contract {J : Type} (pf : String → ℚ)
    (hav : ℚ → ℚ → Station → ℚ) (jp : String → Option J) (genv : GeoEnv) :
    ((geocodeLocation (J := J) pf genv).2 =
      (if effCandidates genv.primary = [] then [.geoPrimary, .geoFallback]
       else [.geoPrimary])) ∧
    (∀ c rest, effCandidates genv.primary = c :: rest →
      (geocodeLocation (J := J) pf genv).1 =
        .ok { lat := pf c.lat, lon := pf c.lon, displayName := c.display_name }) ∧
    (∀ c rest, effCandidates genv.primary = [] →
      effCandidates genv.fallback = c :: rest →
      (geocodeLocation (J := J) pf genv).1 =
        .ok { lat := pf c.lat, lon := pf c.lon, displayName := c.display_name }) ∧
    ((∃ m, (geocodeLocation (J := J) pf genv).1 = .error m) ↔
      (effCandidates genv.primary = [] ∧ effCandidates genv.fallback = [])) ∧
    (∀ m, (geocodeLocation (J := J) pf genv).1 = .error m →
      m = "Location not found; please enter a more specific place name" ∧
      strIncludesLower m "location not found" = true) ∧
    (∀ env : ServeEnv, effCandidates env.geo.primary = [] →
      effCandidates env.geo.fallback = [] →
      (serve pf hav jp env).1 =
        { status := 400,
          respBody := .failure "Location not found; please enter a more specific place name" } ∧
      (∀ s u, ExtCall.openaiCall s u ∉ (serve pf hav jp env).2)) := by
  refine ⟨geocode_trace_shape pf genv, ?_, ?_, geocode_error_iff pf genv, ?_, ?_⟩
  · intro c rest hp
    rw [geocodeLocation_primary_ok pf genv c rest hp]
  · intro c rest hp hf
    rw [geocodeLocation_fallback_ok pf genv c rest hp hf]
  · intro m hm
    rcases hp : effCandidates genv.primary with _ | ⟨c, rest⟩
    · rcases hf : effCandidates genv.fallback with _ | ⟨c, rest⟩
      · rw [geocodeLocation_both_empty pf genv hp hf] at hm
        cases hm
        exact ⟨rfl, by decide⟩
      · rw [geocodeLocation_fallback_ok pf genv c rest hp hf] at hm; cases hm
    · rw [geocodeLocation_primary_ok pf genv c rest hp] at hm; cases hm
  · intro env hp hf
    exact serve_location_unresolved pf hav jp env hp hf

/-- Witness for C3: with both providers returning empty lists the concrete
request is answered 400 with the location message and no model call. -/
theorem geocode_fallback_contract_witness :
    (serve pf0 hav0 jpAll envGeoEmpty).1 =
      { status := 400,
        respBody := .failure "Location not found; please enter a more specific place name" } ∧
    (∀ s u, ExtCall.openaiCall s u ∉ (serve pf0 hav0 jpAll envGeoEmpty).2) :=
  (geocode_fallback_contract pf0 hav0 jpAll envGeoEmpty.geo).2.2.2.2.2 envGeoEmpty
    (by decide) (by decide)

/-- Whatever happens externally, a successful `serveCore` run assembles the
payload from the locally computed values: plan id and timestamp from the
request-scoped identifiers, `tides` and `moonPhase` overwritten with the
local tide-adapter result and `getMoonPhase`, `preferences` the verbatim
request fields, and the parsed/raw itinerary derived from the fence-stripped
model output. -/
theorem serveCore_ok_shape {J : Type} (pf : String → ℚ)
    (hav : ℚ → ℚ → Station → ℚ) (jp : String → Option J) (env : ServeEnv)
    (d : SuccessData J) (tr : List (ExtCall J))
    (hcore : serveCore pf hav jp env = (.ok d, tr)) :
    d.prefs = prefsOf env.body ∧
    d.payload.plan_id = env.planId ∧
    d.payload.generated_at = env.nowIso ∧
    d.payload.itinerary.tides = (d.tideRes.nextHigh, d.tideRes.nextLow) ∧
    d.payload.itinerary.moonPhase = getMoonPhase env.dateY env.dateM env.dateD ∧
    d.waterRes = (fetchWaterConditions (J := J) env.water).1 ∧
    (∃ loc, (geocodeLocation (J := J) pf env.geo).1 = .ok loc ∧
      d.tideRes =
        (fetchTideSummary (J := J) pf hav loc.lat loc.lon env.tideCache env.tide).1) ∧
    (∃ comp out, env.openaiResult = .ok comp ∧ comp.output_text = some out ∧
      jsTrim out ≠ "" ∧
      d.payload.itinerary.parsed = jp (jsTrim (stripFences (jsTrim out))) ∧
      d.payload.itinerary.raw =
        (match jp (jsTrim (stripFences (jsTrim out))) with
         | some _ => none
         | none => some (jsTrim (stripFences (jsTrim out))))) := by
  unfold serveCore at hcore
  rcases hg : geocodeLocation (J := J) pf env.geo with ⟨gres, gtr⟩
  rw [hg] at hcore
  cases gres with
  | error m => simp at hcore
  | ok loc =>
    dsimp only at hcore
    rcases hw : (fetchWeatherSummary (J := J) env.weather).1 with m | weather
    · rw [hw] at hcore; simp at hcore
    rw [hw] at hcore
    dsimp only at hcore
    cases hkey : strTruthy env.openaiKey with
    | false => simp only [hkey] at hcore; simp at hcore
    | true =>
      simp only [hkey, if_true] at hcore
      rcases ho : env.openaiResult with m | comp
      · rw [ho] at hcore; simp at hcore
      rw [ho] at hcore
      dsimp only at hcore
      rcases hot : comp.output_text with _ | rawOut
      · rw [hot] at hcore; simp at hcore
      rw [hot] at hcore
      dsimp only at hcore
      by_cases hne : jsTrim rawOut = ""
      · simp [hne] at hcore
      rw [if_neg hne] at hcore
      simp only [Prod.mk.injEq, Except.ok.injEq] at hcore
      obtain ⟨hd, htr⟩ := hcore
      subst hd
      refine ⟨rfl, rfl, rfl, rfl, rfl, rfl, ⟨loc, rfl, rfl⟩,
        ⟨comp, rawOut, rfl, hot, hne, rfl, rfl⟩⟩

/-- A successful points lookup with a truthy forecast URL and a JSON forecast
body makes the weather adapter succeed. -/
theorem fetchWeather_ok {J : Type} (env : WeatherEnv) (st st2 : Int) (ok2 : Bool)
    (pb : PointsBody) (fb : ForecastBody)
    (hp : env.points = .resp true st (.ok pb))
    (hu : strTruthy pb.forecast = true)
    (hf : env.forecast = .resp ok2 st2 (.ok fb)) :
    fetchWeatherSummary (J := J) env =
      (.ok { summary :=
               jsOrStr ((fb.periods.getD []).head?.bind Period.detailedForecast)
                 (jsOrStr ((fb.periods.getD []).head?.bind Period.shortForecast)
                   "No forecast available"),
             details := (fb.periods.getD []).head? },
       [.noaaPoints, .noaaForecast]) := by
  unfold fetchWeatherSummary
  rw [hp, hf]
  simp [hu]

/-- Under a resolvable location, a healthy weather provider, a configured
key, and non-empty model output, `serveCore` succeeds — for every behaviour
of the water and tide providers and of the persistence layer. -/
theorem serveCore_success {J : Type} (pf : String → ℚ)
    (hav : ℚ → ℚ → Station → ℚ) (jp : String → Option J) (env : ServeEnv)
    (c : Candidate) (rest : List Candidate) (st st2 : Int) (ok2 : Bool)
    (pb : PointsBody) (fb : ForecastBody) (comp : OpenAIResp) (out : String)
    (h1 : effCandidates env.geo.primary = c :: rest)
    (h2 : env.weather.points = .resp true st (.ok pb))
    (h2b : strTruthy pb.forecast = true)
    (h2c : env.weather.forecast = .resp ok2 st2 (.ok fb))
    (h3 : strTruthy env.openaiKey = true)
    (h4 : env.openaiResult = .ok comp)
    (h5 : comp.output_text = some out)
    (h6 : jsTrim out ≠ "") :
    ∃ d tr, serveCore pf hav jp env = (.ok d, tr) := by
  unfold serveCore
  rw [geocodeLocation_primary_ok pf env.geo c rest h1]
  dsimp only
  rw [fetchWeather_ok env.weather st st2 ok2 pb fb h2 h2b h2c]
  dsimp only
  rw [h3, if_pos rfl, h4]
  dsimp only
  rw [h5]
  dsimp only
  rw [if_neg h6]
  exact ⟨_, _, rfl⟩

/-- C1 (amended): the WATER and TIDE adapters are fault-tolerant — a thrown
network error, a non-2xx response, a non-JSON body, or missing data is
caught locally and converted to a fixed sentinel result, and those two
adapters never throw (their embeddings are total).  The WEATHER adapter is
not: it propagates failures (see the counterexample).  Consequently a
request in which only the water or only the tide provider fails still
succeeds with status 200, the degraded water summary being exactly what is
handed to the synthesizer and the degraded tide extremes being what the
response carries. -/
theorem water_tide_adapters_degrade_gracefully {J : Type} (pf : String → ℚ)
    (hav : ℚ → ℚ → Station → ℚ) (jp : String → Option J) :
    (∀ m, (fetchWaterConditions (J := J) { usgs := .netErr m }).1 =
      { summary := "USGS service unreachable", details := none }) ∧
    (∀ b, (fetchWaterConditions (J := J) { usgs := .resp false 400 b }).1 =
      { summary := "No nearby water gauge data", details := none }) ∧
    (∀ st b, st ≠ 400 →
      (fetchWaterConditions (J := J) { usgs := .resp false st b }).1 =
        { summary := "USGS service unavailable", details := none }) ∧
    (∀ st m, (fetchWaterConditions (J := J) { usgs := .resp true st (.error m) }).1 =
      { summary := "No water data (invalid response)", details := none }) ∧
    (∀ lat lon m p, (fetchTideSummary (J := J) pf hav lat lon none
        { stations := .netErr m, pred := p }).1 = tideSentinel) ∧
    (∀ lat lon st b p, (fetchTideSummary (J := J) pf hav lat lon none
        { stations := .resp false st b, pred := p }).1 = tideSentinel) ∧
    (∀ lat lon st m p, (fetchTideSummary (J := J) pf hav lat lon none
        { stations := .resp true st (.error m), pred := p }).1 = tideSentinel) ∧
    (∀ nearest stations m,
      (tidePredict (J := J) nearest (.netErr m) stations).1 = tideSentinel) ∧
    (∀ nearest stations st b,
      (tidePredict (J := J) nearest (.resp false st b) stations).1 = tideSentinel) ∧
    (∀ nearest stations st m,
      (tidePredict (J := J) nearest (.resp true st (.error m)) stations).1 = tideSentinel) ∧
    (∀ nearest stations st,
      (tidePredict (J := J) nearest (.resp true st (.ok { predictions := none })) stations).1 =
        tideSentinel) ∧
    (∀ (env : ServeEnv) c rest st st2 ok2 pb fb comp out,
      effCandidates env.geo.primary = c :: rest →
      env.weather.points = .resp true st (.ok pb) →
      strTruthy pb.forecast = true →
      env.weather.forecast = .resp ok2 st2 (.ok fb) →
      strTruthy env.openaiKey = true →
      env.openaiResult = .ok comp →
      comp.output_text = some out →
      jsTrim out ≠ "" →
      (serve pf hav jp env).1.status = 200) ∧
    (∀ (env : ServeEnv) d tr, serveCore pf hav jp env = (.ok d, tr) →
      d.waterRes = (fetchWaterConditions (J := J) env.water).1 ∧
      ∃ loc, (geocodeLocation (J := J) pf env.geo).1 = .ok loc ∧
        d.tideRes =
          (fetchTideSummary (J := J) pf hav loc.lat loc.lon env.tideCache env.tide).1) := by
  refine ⟨fun m => rfl, fun b => rfl, ?_, fun st m => rfl, fun lat lon m p => rfl,
    fun lat lon st b p => rfl, fun lat lon st m p => rfl, fun nearest stations m => rfl,
    fun nearest stations st b => rfl, fun nearest stations st m => rfl,
    fun nearest stations st => rfl, ?_, ?_⟩
  · intro st b hne
    unfold fetchWaterConditions
    simp [hne]
  · intro env c rest st st2 ok2 pb fb comp out h1 h2 h2b h2c h3 h4 h5 h6
    obtain ⟨d, tr, hcore⟩ :=
      serveCore_success pf hav jp env c rest st st2 ok2 pb fb comp out h1 h2 h2b h2c h3 h4 h5 h6
    unfold serve
    rw [hcore]
  · intro env d tr hcore
    have h := serveCore_ok_shape pf hav jp env d tr hcore
    exact ⟨h.2.2.2.2.2.1, h.2.2.2.2.2.2.1⟩

/-- Witness for C1 (amended): with only the water provider down the request
succeeds, with only the tide provider down the request succeeds, and the
water adapter returned its sentinel. -/
theorem water_tide_adapters_degrade_gracefully_witness :
    (fetchWaterConditions (J := Unit) envWaterDown.water).1 =
      { summary := "USGS service unreachable", details := none } ∧
    (serve pf0 hav0 jpAll envWaterDown).1.status = 200 ∧
    (serve pf0 hav0 jpAll envTideDown).1.status = 200 := by
  refine ⟨(water_tide_adapters_degrade_gracefully pf0 hav0 jpAll).1 "connection refused",
    ?_, ?_⟩
  · exact (water_tide_adapters_degrade_gracefully
      pf0 hav0 jpAll).2.2.2.2.2.2.2.2.2.2.2.1 envWaterDown cand0 [] 200 200 true
      { forecast := some "https://api.weather.gov/gridpoints/x/forecast" } forecastBody0
      { output_text := some "\x7b\"summary\":\"ok\"\x7d",
        usage := some { prompt_tokens := some 100, completion_tokens := some 200,
                        total_tokens := some 300, input_tokens := none, output_tokens := none } }
      "\x7b\"summary\":\"ok\"\x7d" rfl rfl rfl rfl rfl rfl rfl (by decide)
  · exact (water_tide_adapters_degrade_gracefully
      pf0 hav0 jpAll).2.2.2.2.2.2.2.2.2.2.2.1 envTideDown cand0 [] 200 200 true
      { forecast := some "https://api.weather.gov/gridpoints/x/forecast" } forecastBody0
      { output_text := some "\x7b\"summary\":\"ok\"\x7d",
        usage := some { prompt_tokens := some 100, completion_tokens := some 200,
                        total_tokens := some 300, input_tokens := none, output_tokens := none } }
      "\x7b\"summary\":\"ok\"\x7d" rfl rfl rfl rfl rfl rfl rfl (by decide)

/-- C4: for every non-empty model output, the synthesizer strips one leading
and one trailing Markdown code fence, attempts `JSON.parse` on the result,
and on parse failure does not throw: the request still completes with a 200
success response whose itinerary carries no parsed canonical fields and
whose `raw` field holds the stripped text. -/
theorem parse_failure_soft_fallback {J : Type} (pf : String → ℚ)
    (hav : ℚ → ℚ → Station → ℚ) (jp : String → Option J) (env : ServeEnv)
    (d : SuccessData J) (tr : List (ExtCall J)) (comp : OpenAIResp) (out : String)
    (hcore : serveCore pf hav jp env = (.ok d, tr))
    (hcomp : env.openaiResult = .ok comp)
    (hout : comp.output_text = some out)
    (hparse : jp (jsTrim (stripFences (jsTrim out))) = none) :
    (serve pf hav jp env).1 = { status := 200, respBody := .success d.payload } ∧
    d.payload.itinerary.parsed = none ∧
    d.payload.itinerary.raw = some (jsTrim (stripFences (jsTrim out))) := by
  obtain ⟨-, -, -, -, -, -, -, comp', out', hcomp', hout', hne', hparsed, hraw⟩ :=
    serveCore_ok_shape pf hav jp env d tr hcore
  rw [hcomp] at hcomp'
  injection hcomp' with h
  subst h
  rw [hout] at hout'
  injection hout' with h
  subst h
  refine ⟨?_, ?_, ?_⟩
  · unfold serve; rw [hcore]
  · rw [hparsed, hparse]
  · rw [hraw, hparse]


theorem parse_failure_soft_fallback_witness :
    (serve pf0 hav0 jpNone envFencedOutput).1 =
      { status := 200, respBody := .success dFenced.payload } ∧
    dFenced.payload.itinerary.parsed = none ∧
    dFenced.payload.itinerary.raw = some "This is not JSON, sorry!" := by
  obtain ⟨d, tr, hcore0⟩ := serveCore_success pf0 hav0 jpNone envFencedOutput cand0 [] 200 200
    true { forecast := some "https://api.weather.gov/gridpoints/x/forecast" } forecastBody0
    fencedResp "```json\nThis is not JSON, sorry!\n```" rfl rfl rfl rfl rfl rfl rfl (by decide)
  have h1 : coreFenced.1 = .ok d := by unfold coreFenced; rw [hcore0]
  have hdF : dFenced = d := by unfold dFenced; rw [h1]
  have h2 : coreFenced.2 = tr := by unfold coreFenced; rw [hcore0]
  have hcore : serveCore pf0 hav0 jpNone envFencedOutput = (.ok dFenced, coreFenced.2) := by
    rw [hdF, h2]
    exact hcore0
  have h := parse_failure_soft_fallback pf0 hav0 jpNone envFencedOutput dFenced coreFenced.2
    fencedResp "```json\nThis is not JSON, sorry!\n```" hcore rfl rfl rfl
  refine ⟨h.1, h.2.1, ?_⟩
  rw [h.2.2]
  decide
/-- C7 (amended): the handler's catch block echoes the RAW thrown message in
the error body (it is not replaced by a generic message); only the status
code is derived from the message, 400 when it mentions an unresolvable
location and 500 otherwise.  Server-error bodies can therefore name an
upstream provider or a missing environment variable (see counterexample). -/
theorem error_response_echoes_raw_message {J : Type} (pf : String → ℚ)
    (hav : ℚ → ℚ → Station → ℚ) (jp : String → Option J) (env : ServeEnv)
    (m : String) (tr : List (ExtCall J))
    (hcore : serveCore pf hav jp env = (.error m, tr)) :
    (serve pf hav jp env).1 =
      { status := if strIncludesLower m "location not found" then 400 else 500,
        respBody := .failure m } := by
  unfold serve
  rw [hcore]

/-- Witness for C7 (amended) at the missing-key environment. -/
theorem error_response_echoes_raw_message_witness :
    (serve pf0 hav0 jpAll envNoKey).1 =
      { status := 500, respBody := .failure "Missing OPENAI_API_KEY env var" } := by
  have hcore : serveCore pf0 hav0 jpAll envNoKey =
      (.error "Missing OPENAI_API_KEY env var", coreNoKey.2) := by decide
  have h := error_response_echoes_raw_message pf0 hav0 jpAll envNoKey
    "Missing OPENAI_API_KEY env var" coreNoKey.2 hcore
  rw [h]
  decide

/-- C7 counterexample: a server-error (500) response whose body is NOT
generic — it names the missing `OPENAI_API_KEY` environment variable,
leaking internal configuration detail to the caller. -/
theorem server_error_leaks_internal_detail :
    (serve pf0 hav0 jpAll envNoKey).1.status = 500 ∧
    (serve pf0 hav0 jpAll envNoKey).1.respBody =
      .failure "Missing OPENAI_API_KEY env var" ∧
    strIncludes "Missing OPENAI_API_KEY env var" "OPENAI_API_KEY" = true := by
  refine ⟨by decide, by decide, by decide⟩

/-- Each tide extreme produced by the prediction step is either `"N/A"` or
the `t` field of a provider-supplied prediction of the matching type. -/
theorem tidePredict_vals {J : Type} (nearest : Station) (p : Fetch PredBody)
    (stations : List Station) :
    ((tidePredict (J := J) nearest p stations).1.nextHigh = "N/A" ∨
      ∃ st preds q, p = .resp true st (.ok { predictions := some preds }) ∧
        q ∈ preds ∧ q.type = "H" ∧
        (tidePredict (J := J) nearest p stations).1.nextHigh = q.t) ∧
    ((tidePredict (J := J) nearest p stations).1.nextLow = "N/A" ∨
      ∃ st preds q, p = .resp true st (.ok { predictions := some preds }) ∧
        q ∈ preds ∧ q.type = "L" ∧
        (tidePredict (J := J) nearest p stations).1.nextLow = q.t) := by
  cases p with
  | netErr m => exact ⟨Or.inl rfl, Or.inl rfl⟩
  | resp pok st body =>
    cases pok with
    | false => exact ⟨Or.inl rfl, Or.inl rfl⟩
    | true =>
      cases body with
      | error m => exact ⟨Or.inl rfl, Or.inl rfl⟩
      | ok pb =>
        cases pb with
        | mk preds? =>
          cases preds? with
          | none => exact ⟨Or.inl rfl, Or.inl rfl⟩
          | some preds =>
            constructor
            · cases hf : preds.find? (fun q => q.type = "H") with
              | none =>
                left
                unfold tidePredict
                simp [hf, jsOrStr]
              | some q =>
                have hq : q.type = "H" := by
                  have h2 := List.find?_some hf
                  simpa using h2
                have hmem : q ∈ preds := List.mem_of_find?_eq_some hf
                by_cases hqt : q.t = ""
                · left
                  unfold tidePredict
                  simp [hf, jsOrStr, hqt]
                · right
                  refine ⟨st, preds, q, rfl, hmem, hq, ?_⟩
                  unfold tidePredict
                  simp [hf, jsOrStr, hqt]
            · cases hf : preds.find? (fun q => q.type = "L") with
              | none =>
                left
                unfold tidePredict
                simp [hf, jsOrStr]
              | some q =>
                have hq : q.type = "L" := by
                  have h2 := List.find?_some hf
                  simpa using h2
                have hmem : q ∈ preds := List.mem_of_find?_eq_some hf
                by_cases hqt : q.t = ""
                · left
                  unfold tidePredict
                  simp [hf, jsOrStr, hqt]
                · right
                  refine ⟨st, preds, q, rfl, hmem, hq, ?_⟩
                  unfold tidePredict
                  simp [hf, jsOrStr, hqt]

/-- The tide extremes returned by the adapter are provider timestamps or
`"N/A"`, whatever the cache state and provider behaviour. -/
theorem fetchTideSummary_vals {J : Type} (pf : String → ℚ)
    (hav : ℚ → ℚ → Station → ℚ) (lat lon : ℚ) (cache : Option (List Station))
    (tenv : TideEnv) :
    ((fetchTideSummary (J := J) pf hav lat lon cache tenv).1.nextHigh = "N/A" ∨
      ∃ st preds q, tenv.pred = .resp true st (.ok { predictions := some preds }) ∧
        q ∈ preds ∧ q.type = "H" ∧
        (fetchTideSummary (J := J) pf hav lat lon cache tenv).1.nextHigh = q.t) ∧
    ((fetchTideSummary (J := J) pf hav lat lon cache tenv).1.nextLow = "N/A" ∨
      ∃ st preds q, tenv.pred = .resp true st (.ok { predictions := some preds }) ∧
        q ∈ preds ∧ q.type = "L" ∧
        (fetchTideSummary (J := J) pf hav lat lon cache tenv).1.nextLow = q.t) := by
  cases cache with
  | some stations =>
    cases stations with
    | nil => exact ⟨Or.inl rfl, Or.inl rfl⟩
    | cons first rest =>
      have h : fetchTideSummary (J := J) pf hav lat lon (some (first :: rest)) tenv =
          tidePredict (J := J) (nearestStation (hav lat lon) first rest) tenv.pred
            (first :: rest) := rfl
      rw [h]
      exact tidePredict_vals _ _ _
  | none =>
    cases hst : tenv.stations with
    | netErr m =>
      have h : fetchTideSummary (J := J) pf hav lat lon none tenv =
          (tideSentinel, none, [.tideStationsFetch]) := by
        unfold fetchTideSummary; rw [hst]
      rw [h]
      exact ⟨Or.inl rfl, Or.inl rfl⟩
    | resp ok st body =>
      cases ok with
      | false =>
        have h : fetchTideSummary (J := J) pf hav lat lon none tenv =
            (tideSentinel, none, [.tideStationsFetch]) := by
          simp [fetchTideSummary, hst]
        rw [h]
        exact ⟨Or.inl rfl, Or.inl rfl⟩
      | true =>
        cases body with
        | error m =>
          have h : fetchTideSummary (J := J) pf hav lat lon none tenv =
              (tideSentinel, none, [.tideStationsFetch]) := by
            simp [fetchTideSummary, hst]
          rw [h]
          exact ⟨Or.inl rfl, Or.inl rfl⟩
        | ok raw =>
          cases hm : mapStations pf raw with
          | nil =>
            have h : fetchTideSummary (J := J) pf hav lat lon none tenv =
                (tideSentinel, some [], [.tideStationsFetch]) := by
              simp [fetchTideSummary, hst, hm]
            rw [h]
            exact ⟨Or.inl rfl, Or.inl rfl⟩
          | cons first rest =>
            have h : (fetchTideSummary (J := J) pf hav lat lon none tenv).1 =
                (tidePredict (J := J) (nearestStation (hav lat lon) first rest)
                  tenv.pred (first :: rest)).1 := by
              simp [fetchTideSummary, hst, hm]
            rw [h]
            exact tidePredict_vals _ _ _

/-- C5: every successful response carries `tides` equal to the
`{ nextHigh, nextLow }` computed by the local tide adapter and `moonPhase`
equal to the locally computed `getMoonPhase` value — the model's own fields
are overwritten — and each tide extreme is either a provider-supplied
timestamp of the matching type or the literal `"N/A"`. -/
theorem tides_and_moon_locally_authoritative {J : Type} (pf : String → ℚ)
    (hav : ℚ → ℚ → Station → ℚ) (jp : String → Option J) :
    (∀ (env : ServeEnv) (d : SuccessData J) (tr : List (ExtCall J)),
      serveCore pf hav jp env = (.ok d, tr) →
      (serve pf hav jp env).1 = { status := 200, respBody := .success d.payload } ∧
      d.payload.itinerary.tides = (d.tideRes.nextHigh, d.tideRes.nextLow) ∧
      d.payload.itinerary.moonPhase = getMoonPhase env.dateY env.dateM env.dateD ∧
      ∃ loc, (geocodeLocation (J := J) pf env.geo).1 = .ok loc ∧
        d.tideRes =
          (fetchTideSummary (J := J) pf hav loc.lat loc.lon env.tideCache env.tide).1) ∧
    (∀ (lat lon : ℚ) (cache : Option (List Station)) (tenv : TideEnv),
      ((fetchTideSummary (J := J) pf hav lat lon cache tenv).1.nextHigh = "N/A" ∨
        ∃ st preds q, tenv.pred = .resp true st (.ok { predictions := some preds }) ∧
          q ∈ preds ∧ q.type = "H" ∧
          (fetchTideSummary (J := J) pf hav lat lon cache tenv).1.nextHigh = q.t) ∧
      ((fetchTideSummary (J := J) pf hav lat lon cache tenv).1.nextLow = "N/A" ∨
        ∃ st preds q, tenv.pred = .resp true st (.ok { predictions := some preds }) ∧
          q ∈ preds ∧ q.type = "L" ∧
          (fetchTideSummary (J := J) pf hav lat lon cache tenv).1.nextLow = q.t)) := by
  constructor
  · intro env d tr hcore
    have h := serveCore_ok_shape pf hav jp env d tr hcore
    refine ⟨?_, h.2.2.2.1, h.2.2.2.2.1, h.2.2.2.2.2.2.1⟩
    unfold serve
    rw [hcore]
  · intro lat lon cache tenv
    exact fetchTideSummary_vals pf hav lat lon cache tenv

/-- Witness for C5 on the all-success environment: the response carries the
adapter's tide extremes and the locally computed moon phase. -/
theorem tides_and_moon_locally_authoritative_witness :
    (serve pf0 hav0 jpAll envOK).1 = { status := 200, respBody := .success dOK.payload } ∧
    dOK.payload.itinerary.tides = (dOK.tideRes.nextHigh, dOK.tideRes.nextLow) ∧
    dOK.payload.itinerary.moonPhase = getMoonPhase 2025 10 11 := by
  obtain ⟨d, tr, hcore0⟩ := serveCore_success pf0 hav0 jpAll envOK cand0 [] 200 200
    true { forecast := some "https://api.weather.gov/gridpoints/x/forecast" } forecastBody0
    okResp "\x7b\"summary\":\"ok\"\x7d" rfl rfl rfl rfl rfl rfl rfl (by decide)
  have h1 : coreOK.1 = .ok d := by unfold coreOK; rw [hcore0]
  have hdF : dOK = d := by unfold dOK; rw [h1]
  have h2 : coreOK.2 = tr := by unfold coreOK; rw [hcore0]
  have hcore : serveCore pf0 hav0 jpAll envOK = (.ok dOK, coreOK.2) := by
    rw [hdF, h2]
    exact hcore0
  have h := (tides_and_moon_locally_authoritative pf0 hav0 jpAll).1 envOK dOK coreOK.2 hcore
  exact ⟨h.1, h.2.1, h.2.2.1⟩

/-- C10: whenever the persistence step runs and succeeds, the `trips` row
carries exactly the response's plan id, itinerary (with the locally
overwritten tides and moonPhase) and timestamp, and its `preferences`
column is the verbatim original request; the subsequent `token_usage` row
references the same plan id. -/
theorem persisted_row_matches_response {J : Type} (pf : String → ℚ)
    (hav : ℚ → ℚ → Station → ℚ) (jp : String → Option J) (env : ServeEnv)
    (d : SuccessData J) (tr : List (ExtCall J)) (uid : String)
    (hconf : env.supabaseConfigured = true)
    (hjwt : env.jwtSub = .ok uid)
    (hins : env.tripsInsert = .ok none)
    (hcore : serveCore pf hav jp env = (.ok d, tr)) :
    (serve pf hav jp env).1 = { status := 200, respBody := .success d.payload } ∧
    d.prefs = prefsOf env.body ∧
    (serve pf hav jp env).2 = tr ++
      [ ExtCall.tripsInsert
          { user_id := uid, plan_id := d.payload.plan_id,
            itinerary := d.payload.itinerary, preferences := d.prefs,
            generated_at := d.payload.generated_at },
        ExtCall.usageInsert
          { user_id := uid, plan_id := d.payload.plan_id,
            model := "gpt-4o", prompt_tokens := d.promptTokens,
            completion_tokens := d.completionTokens, total_tokens := d.totalTokens } ] := by
  have hpref := (serveCore_ok_shape pf hav jp env d tr hcore).1
  refine ⟨?_, hpref, ?_⟩
  · unfold serve
    rw [hcore]
  · unfold serve
    rw [hcore]
    dsimp only
    unfold persistCalls
    simp [hconf, hjwt, hins]

/-- Witness for C10 on the all-success environment. -/
theorem persisted_row_matches_response_witness :
    (serve pf0 hav0 jpAll envOK).1 = { status := 200, respBody := .success dOK.payload } ∧
    dOK.prefs = prefsOf envOK.body ∧
    (serve pf0 hav0 jpAll envOK).2 = coreOK.2 ++
      [ ExtCall.tripsInsert
          { user_id := "user-1", plan_id := dOK.payload.plan_id,
            itinerary := dOK.payload.itinerary, preferences := dOK.prefs,
            generated_at := dOK.payload.generated_at },
        ExtCall.usageInsert
          { user_id := "user-1", plan_id := dOK.payload.plan_id,
            model := "gpt-4o", prompt_tokens := dOK.promptTokens,
            completion_tokens := dOK.completionTokens, total_tokens := dOK.totalTokens } ] := by
  obtain ⟨d, tr, hcore0⟩ := serveCore_success pf0 hav0 jpAll envOK cand0 [] 200 200
    true { forecast := some "https://api.weather.gov/gridpoints/x/forecast" } forecastBody0
    okResp "\x7b\"summary\":\"ok\"\x7d" rfl rfl rfl rfl rfl rfl rfl (by decide)
  have h1 : coreOK.1 = .ok d := by unfold coreOK; rw [hcore0]
  have hdF : dOK = d := by unfold dOK; rw [h1]
  have h2 : coreOK.2 = tr := by unfold coreOK; rw [hcore0]
  have hcore : serveCore pf0 hav0 jpAll envOK = (.ok dOK, coreOK.2) := by
    rw [hdF, h2]
    exact hcore0
  exact persisted_row_matches_response pf0 hav0 jpAll envOK dOK coreOK.2 "user-1"
    rfl rfl rfl hcore
